import Mathlib

/-!
# Whalytics SDK — formal model and verification

The repository's visible source is `src/examples/basic_usage.rs`, a caller of
the `whalytics_sdk` crate (whose own source is not part of the visible tree).
The definitions below model the SDK's core — `Event`, `WhalyticsEventBuilder`,
`WhalyticsSession`, `WhalyticsClient` — from the specification, shaped to
match the API surface the example exercises (`WhalyticsEventBuilder::default`,
fluent setters, `WhalyticsSession::new` / `set_user_property` / `event`,
`WhalyticsClient::new` / `log_event` / `pending_events_count` / `flush`).
-/

namespace Whalytics

/-- Modelled from the spec: JSON-representable values accepted as event and
user property values (`serde_json::Value` in the example): string, number,
boolean, null, nested object/array. Numbers are modelled as integers; no
verified property depends on numeric representation. -/
inductive Json where
  | null : Json
  | bool (b : Bool) : Json
  | num (n : Int) : Json
  | str (s : String) : Json
  | arr (xs : List Json) : Json
  | obj (fields : List (String × Json)) : Json

/-- Property maps: a mapping from string keys to JSON values, modelled as an
association list (insertion order irrelevant for the verified properties). -/
abbrev PropMap := List (String × Json)

/-- Modelled from the spec: `set_user_property` overwrites any existing value
for the key; a fresh key is appended. -/
def insertProp : PropMap → String → Json → PropMap
  | [], k, v => [(k, v)]
  | (k', v') :: rest, k, v =>
    if k' = k then (k, v) :: rest else (k', v') :: insertProp rest k v

/-- Modelled from the spec: an immutable record of one analytics occurrence.
`name`, `user_id`, `session_id` are required non-empty; `timestamp` is set at
build time; the property maps are optional ad hoc data. -/
structure Event where
  name : String
  user_id : String
  session_id : String
  timestamp : Nat
  event_properties : PropMap
  user_properties : PropMap

/-- The three required Event fields, in the fixed validation check order. -/
inductive RequiredField where
  | name : RequiredField
  | user_id : RequiredField
  | session_id : RequiredField
deriving DecidableEq, Repr

/-- Modelled from the spec: error returned by `build()` when a required Event
field is missing or empty; names the first such field in check order. -/
structure ValidationError where
  field : RequiredField
deriving DecidableEq, Repr

/-- Modelled from the spec: error raised synchronously at construction time
for empty/missing identity strings (`WhalyticsClient::new`,
`WhalyticsSession::new`). -/
structure InvalidArgument where
  message : String
deriving DecidableEq, Repr

/-- Modelled from the spec: transient staging object holding partially-filled
Event fields. A field not yet set is `none`. -/
structure WhalyticsEventBuilder where
  nameOpt : Option String
  userIdOpt : Option String
  sessionIdOpt : Option String
  eventProps : PropMap
  userProps : PropMap

/-- Modelled from the spec: `WhalyticsEventBuilder::default()` — a standalone
builder with every field absent and empty property maps. -/
def WhalyticsEventBuilder.default : WhalyticsEventBuilder :=
  { nameOpt := none, userIdOpt := none, sessionIdOpt := none,
    eventProps := [], userProps := [] }

/-- Modelled from the spec: `.event(name)` sets the required name field; no
immediate validation (deferred to `build`). -/
def WhalyticsEventBuilder.event (b : WhalyticsEventBuilder) (name : String) :
    WhalyticsEventBuilder :=
  { b with nameOpt := some name }

/-- Modelled from the spec: `.user_id(id)` sets the required user identity. -/
def WhalyticsEventBuilder.user_id (b : WhalyticsEventBuilder) (id : String) :
    WhalyticsEventBuilder :=
  { b with userIdOpt := some id }

/-- Modelled from the spec: `.session_id(id)` sets the required session
identity. -/
def WhalyticsEventBuilder.session_id (b : WhalyticsEventBuilder) (id : String) :
    WhalyticsEventBuilder :=
  { b with sessionIdOpt := some id }

/-- Modelled from the spec: `.event_properties(map)` replaces the entire
event-properties map (no merging). -/
def WhalyticsEventBuilder.event_properties (b : WhalyticsEventBuilder)
    (map : PropMap) : WhalyticsEventBuilder :=
  { b with eventProps := map }

/-- A required field is invalid when missing (`none`) or empty (`some ""`). -/
def missingOrEmpty : Option String → Bool
  | none => true
  | some s => s = ""

/-- Modelled from the spec: `build()` validates the three required fields in
the fixed order name → user_id → session_id, returning a `ValidationError`
naming the first missing/empty one, or the fully-populated immutable Event
stamped with the current time `now`. -/
def WhalyticsEventBuilder.build (b : WhalyticsEventBuilder) (now : Nat) :
    Except ValidationError Event :=
  if missingOrEmpty b.nameOpt then .error ⟨RequiredField.name⟩
  else if missingOrEmpty b.userIdOpt then .error ⟨RequiredField.user_id⟩
  else if missingOrEmpty b.sessionIdOpt then .error ⟨RequiredField.session_id⟩
  else .ok { name := b.nameOpt.getD "", user_id := b.userIdOpt.getD "",
             session_id := b.sessionIdOpt.getD "", timestamp := now,
             event_properties := b.eventProps, user_properties := b.userProps }

/-- Modelled from the spec: a mutable holder of a fixed user/session identity
plus accumulated user properties, used to pre-fill event builders. -/
structure WhalyticsSession where
  user_id : String
  session_id : String
  user_properties : PropMap

/-- Modelled from the spec: `WhalyticsSession::new(user_id, session_id)` —
both identity strings required non-empty; fails with `InvalidArgument`
otherwise, synchronously at construction time. -/
def WhalyticsSession.new (user_id session_id : String) :
    Except InvalidArgument WhalyticsSession :=
  if user_id = "" then .error ⟨"user_id must be non-empty"⟩
  else if session_id = "" then .error ⟨"session_id must be non-empty"⟩
  else .ok { user_id := user_id, session_id := session_id, user_properties := [] }

/-- Modelled from the spec: `set_user_property(key, value)` overwrites any
existing value for that key; any JSON-representable value is accepted. -/
def WhalyticsSession.set_user_property (s : WhalyticsSession) (key : String)
    (value : Json) : WhalyticsSession :=
  { s with user_properties := insertProp s.user_properties key value }

/-- Modelled from the spec: `session.event(name)` returns an EventBuilder
pre-populated with the session's `user_id` and `session_id` and a snapshot
copy (not a live reference) of the current `user_properties`. -/
def WhalyticsSession.event (s : WhalyticsSession) (name : String) :
    WhalyticsEventBuilder :=
  { nameOpt := some name, userIdOpt := some s.user_id,
    sessionIdOpt := some s.session_id, eventProps := [],
    userProps := s.user_properties }

/-- Modelled from the spec: response of the external transport collaborator —
success with an opaque response body, or failure with status/error detail. -/
inductive TransportResult where
  | success (body : String) : TransportResult
  | failure (detail : String) : TransportResult

/-- Modelled from the spec: the external transport collaborator consumes the
api key and the serialized batch — an ordered sequence of Event records — and
answers success or failure. Wire serialization internals are excluded
collaborators, so the payload is modelled as the ordered event sequence. -/
def Transport : Type := String → List Event → TransportResult

/-- Modelled from the spec: `TransportError` wraps the underlying transport
failure detail, returned by a failed `flush()`. -/
structure TransportError where
  detail : String
deriving DecidableEq, Repr

/-- A successful `flush()` outcome: the backend response body (empty for the
empty-queue no-op) and the number of events sent. -/
structure FlushOk where
  response : String
  events_sent : Nat
deriving DecidableEq, Repr

/-- Modelled from the spec: the client owns an immutable api key and a FIFO
pending-events queue, initially empty. -/
structure WhalyticsClient where
  api_key : String
  pending_events : List Event

/-- Modelled from the spec: `WhalyticsClient::new(api_key)` — api key required
non-empty; fails with `InvalidArgument` otherwise, synchronously; initializes
an empty pending-events queue. -/
def WhalyticsClient.new (api_key : String) :
    Except InvalidArgument WhalyticsClient :=
  if api_key = "" then .error ⟨"api_key must be non-empty"⟩
  else .ok { api_key := api_key, pending_events := [] }

/-- Modelled from the spec: `log_event(event)` appends the Event to the tail
of the pending queue; purely local buffering, never fails. -/
def WhalyticsClient.log_event (c : WhalyticsClient) (e : Event) :
    WhalyticsClient :=
  { c with pending_events := c.pending_events ++ [e] }

/-- Modelled from the spec: `pending_events_count()` returns the current queue
length; pure read. -/
def WhalyticsClient.pending_events_count (c : WhalyticsClient) : Nat :=
  c.pending_events.length

/-- Everything observable about one `flush()` call: the returned result, the
client state after the call, and the list of calls made to the transport
collaborator (each a pair of api key and serialized batch). -/
structure FlushOutcome where
  result : Except TransportError FlushOk
  client : WhalyticsClient
  transport_calls : List (String × List Event)

/-- Modelled from the spec: `flush()` with snapshot-then-send semantics.
The queue contents at call time are the snapshot; `during` lists the events
logged by concurrent `log_event` calls while the flush is in flight, in their
completion order. Empty queue: trivial success, no transport call. Otherwise
one transport call delivers the whole snapshot in log order; on success only
the snapshotted events are removed (events logged during the call stay
pending); on failure nothing is removed and a `TransportError` wraps the
detail. -/
def WhalyticsClient.flush (c : WhalyticsClient) (t : Transport)
    (during : List Event) : FlushOutcome :=
  match c.pending_events with
  | [] =>
    { result := .ok { response := "", events_sent := 0 },
      client := { c with pending_events := c.pending_events ++ during },
      transport_calls := [] }
  | _ :: _ =>
    match t c.api_key c.pending_events with
    | .success body =>
      { result := .ok { response := body,
                        events_sent := c.pending_events.length },
        client := { c with pending_events := during },
        transport_calls := [(c.api_key, c.pending_events)] }
    | .failure detail =>
      { result := .error ⟨detail⟩,
        client := { c with pending_events := c.pending_events ++ during },
        transport_calls := [(c.api_key, c.pending_events)] }

/-- A sequential client operation: a `log_event` call, or a `flush` call
against a given transport (no concurrent logging during the flush). -/
inductive ClientOp where
  | log (e : Event) : ClientOp
  | flushOp (t : Transport) : ClientOp

/-- The number of events a single `flush` call removes from the queue: the
whole snapshot when the transport accepts it, nothing when the queue is empty
(no call made) or the transport fails. -/
def flushRemovedCount (c : WhalyticsClient) (t : Transport) : Nat :=
  match c.pending_events with
  | [] => 0
  | _ :: _ =>
    match t c.api_key c.pending_events with
    | .success _ => c.pending_events.length
    | .failure _ => 0

/-- Run a sequence of client operations, also counting the successful
`log_event` calls and the events removed by successful flushes. Returns
`(final client, logged count, removed count)`. -/
def runOps (c : WhalyticsClient) : List ClientOp → WhalyticsClient × Nat × Nat
  | [] => (c, 0, 0)
  | ClientOp.log e :: ops =>
    match runOps (c.log_event e) ops with
    | (c', l, r) => (c', l + 1, r)
  | ClientOp.flushOp t :: ops =>
    match runOps ((c.flush t []).client) ops with
    | (c', l, r) => (c', l, r + flushRemovedCount c t)

/-- The number of events logged since the last successful flush across a run:
`acc` counts the events logged so far since the last success (the initial
queue length at the start); a `log` increments it, a flush resets it to zero
exactly when the flush result is a success. -/
def sinceLastSuccess (c : WhalyticsClient) (acc : Nat) :
    List ClientOp → Nat
  | [] => acc
  | ClientOp.log e :: ops => sinceLastSuccess (c.log_event e) (acc + 1) ops
  | ClientOp.flushOp t :: ops =>
    sinceLastSuccess ((c.flush t []).client)
      (match (c.flush t []).result with
       | .ok _ => 0
       | .error _ => acc) ops

/-- The first missing or empty required field of a builder, enumerated in the
fixed check order name → user_id → session_id (`none` when all are present
and non-empty). This restates the spec's error-naming rule independently of
`build` so the two can be compared. -/
def firstMissingField (b : WhalyticsEventBuilder) : Option RequiredField :=
  if missingOrEmpty b.nameOpt then some RequiredField.name
  else if missingOrEmpty b.userIdOpt then some RequiredField.user_id
  else if missingOrEmpty b.sessionIdOpt then some RequiredField.session_id
  else none

/-- Concrete sample event used to instantiate theorems on closed inputs. -/
def sampleEvent : Event :=
  { name := "app_start", user_id := "rust_user_123",
    session_id := "rust_session_456", timestamp := 0,
    event_properties := [], user_properties := [] }

/-- Concrete fully-populated builder matching `sampleEvent`. -/
def sampleBuilder : WhalyticsEventBuilder :=
  ((WhalyticsEventBuilder.default.event "app_start").user_id
    "rust_user_123").session_id "rust_session_456"

/-- A transport stub that accepts every batch. -/
def alwaysSuccess : Transport :=
  fun _ _ => TransportResult.success "ok"

/-- A transport stub that rejects every batch. -/
def alwaysFailure : Transport :=
  fun _ _ => TransportResult.failure "network error"

/-- A freshly-constructed client with api key `"K"` and an empty queue. -/
def emptyClient : WhalyticsClient :=
  { api_key := "K", pending_events := [] }

/-- A client holding one pending event. -/
def sampleClient : WhalyticsClient :=
  { api_key := "K", pending_events := [sampleEvent] }

/-- A concrete sample session with no user properties yet. -/
def sampleSession : WhalyticsSession :=
  { user_id := "u1", session_id := "s1", user_properties := [] }

/-- A concrete operation sequence: one log followed by a successful flush. -/
def sampleOps : List ClientOp :=
  [ClientOp.log sampleEvent, ClientOp.flushOp alwaysSuccess]

theorem flush_client_count (c : WhalyticsClient) (t : Transport) :
    ((c.flush t []).client).pending_events_count + flushRemovedCount c t
      = c.pending_events_count := by
  unfold WhalyticsClient.flush flushRemovedCount
  cases h : c.pending_events with
  | nil =>
    simp [WhalyticsClient.pending_events_count, h]
  | cons e rest =>
    cases ht : t c.api_key (e :: rest) with
    | success body =>
      simp [WhalyticsClient.pending_events_count, h, ht]
    | failure detail =>
      simp [WhalyticsClient.pending_events_count, h, ht]

theorem runOps_balance (ops : List ClientOp) :
    ∀ c : WhalyticsClient,
      ((runOps c ops).1).pending_events_count + (runOps c ops).2.2
        = c.pending_events_count + (runOps c ops).2.1 := by
  induction ops with
  | nil =>
    intro c
    simp [runOps]
  | cons op ops ih =>
    intro c
    cases op with
    | log e =>
      have h := ih (c.log_event e)
      simp only [runOps]
      cases hrun : runOps (c.log_event e) ops with
      | mk c' p =>
        cases p with
        | mk l r =>
          rw [hrun] at h
          simp only at h ⊢
          have hc : (c.log_event e).pending_events_count
              = c.pending_events_count + 1 := by
            simp [WhalyticsClient.log_event, WhalyticsClient.pending_events_count]
          omega
    | flushOp t =>
      have h := ih ((c.flush t []).client)
      have hc := flush_client_count c t
      simp only [runOps]
      cases hrun : runOps ((c.flush t []).client) ops with
      | mk c' p =>
        cases p with
        | mk l r =>
          rw [hrun] at h
          simp only at h ⊢
          omega

theorem flush_result_count (c : WhalyticsClient) (t : Transport) :
    ((c.flush t []).client).pending_events_count
      = (match (c.flush t []).result with
         | .ok _ => 0
         | .error _ => c.pending_events_count) := by
  unfold WhalyticsClient.flush
  cases h : c.pending_events with
  | nil =>
    simp [WhalyticsClient.pending_events_count, h]
  | cons e rest =>
    cases ht : t c.api_key (e :: rest) with
    | success body =>
      simp [WhalyticsClient.pending_events_count, h, ht]
    | failure detail =>
      simp [WhalyticsClient.pending_events_count, h, ht]

theorem sinceLastSuccess_correct (ops : List ClientOp) :
    ∀ (c : WhalyticsClient) (acc : Nat), c.pending_events_count = acc →
      ((runOps c ops).1).pending_events_count = sinceLastSuccess c acc ops := by
  induction ops with
  | nil =>
    intro c acc h
    simpa [runOps, sinceLastSuccess] using h
  | cons op ops ih =>
    intro c acc h
    cases op with
    | log e =>
      simp only [runOps, sinceLastSuccess]
      have hlog : (c.log_event e).pending_events_count = acc + 1 := by
        simp only [WhalyticsClient.log_event,
          WhalyticsClient.pending_events_count] at h ⊢
        simp only [List.length_append, List.length_cons, List.length_nil]
        omega
      have hrec := ih (c.log_event e) (acc + 1) hlog
      cases hrun : runOps (c.log_event e) ops with
      | mk c' p =>
        cases p with
        | mk l r =>
          rw [hrun] at hrec
          simpa using hrec
    | flushOp t =>
      simp only [runOps, sinceLastSuccess]
      have hflush : ((c.flush t []).client).pending_events_count
          = (match (c.flush t []).result with
             | .ok _ => 0
             | .error _ => acc) := by
        rw [flush_result_count c t]
        cases (c.flush t []).result with
        | ok v => rfl
        | error err => simpa using h
      have hrec := ih ((c.flush t []).client) _ hflush
      cases hrun : runOps ((c.flush t []).client) ops with
      | mk c' p =>
        cases p with
        | mk l r =>
          rw [hrun] at hrec
          simpa using hrec

theorem getD_ne_of_not_missing (o : Option String)
    (h : missingOrEmpty o = false) : o.getD "" ≠ "" := by
  cases o with
  | none => simp [missingOrEmpty] at h
  | some s =>
    simp only [missingOrEmpty, decide_eq_false_iff_not] at h
    simpa using h

/-- C1: for every EventBuilder, `build()` fails iff at least one of `name`,
`user_id`, `session_id` is absent or empty; when `build()` succeeds, all
three of those fields are non-empty in the returned Event. -/
theorem build_validates_required_fields (b : WhalyticsEventBuilder)
    (now : Nat) :
    ((∃ err, b.build now = Except.error err) ↔
      (missingOrEmpty b.nameOpt = true ∨ missingOrEmpty b.userIdOpt = true ∨
       missingOrEmpty b.sessionIdOpt = true)) ∧
    (∀ e, b.build now = Except.ok e →
      e.name ≠ "" ∧ e.user_id ≠ "" ∧ e.session_id ≠ "") := by
  unfold WhalyticsEventBuilder.build
  by_cases hn : missingOrEmpty b.nameOpt = true
  · simp [hn]
  · rw [Bool.not_eq_true] at hn
    by_cases hu : missingOrEmpty b.userIdOpt = true
    · simp [hn, hu]
    · rw [Bool.not_eq_true] at hu
      by_cases hs : missingOrEmpty b.sessionIdOpt = true
      · simp [hn, hu, hs]
      · rw [Bool.not_eq_true] at hs
        constructor
        · simp [hn, hu, hs]
        · intro e he
          simp only [hn, hu, hs, Bool.false_eq_true, if_false,
            Except.ok.injEq] at he
          subst he
          exact ⟨getD_ne_of_not_missing _ hn, getD_ne_of_not_missing _ hu,
            getD_ne_of_not_missing _ hs⟩

theorem build_validates_required_fields_witness :
    sampleBuilder.build 0 = Except.ok sampleEvent ∧
    (sampleEvent.name ≠ "" ∧ sampleEvent.user_id ≠ "" ∧
      sampleEvent.session_id ≠ "") :=
  ⟨rfl, (build_validates_required_fields sampleBuilder 0).2 sampleEvent rfl⟩

/-- C2: with a non-empty queue and a transport that succeeds, `flush()`
returns success, makes exactly one transport call whose payload is the queue
at call time in log order, and leaves pending afterward exactly the events
logged during the call (`during`) — the snapshot is removed, nothing else. -/
theorem flush_success_removes_snapshot (c : WhalyticsClient) (t : Transport)
    (during : List Event) (body : String)
    (hne : c.pending_events ≠ [])
    (hok : t c.api_key c.pending_events = TransportResult.success body) :
    (c.flush t during).result
        = Except.ok { response := body,
                      events_sent := c.pending_events.length } ∧
    (c.flush t during).client.pending_events = during ∧
    (c.flush t during).transport_calls = [(c.api_key, c.pending_events)] := by
  unfold WhalyticsClient.flush
  cases h : c.pending_events with
  | nil => exact absurd h hne
  | cons e rest =>
    rw [h] at hok
    simp [hok]

theorem flush_success_removes_snapshot_witness :
    sampleClient.pending_events ≠ [] ∧
    (sampleClient.flush alwaysSuccess [sampleEvent]).client.pending_events
      = [sampleEvent] :=
  ⟨by simp [sampleClient],
    (flush_success_removes_snapshot sampleClient alwaysSuccess [sampleEvent]
      "ok" (by simp [sampleClient]) rfl).2.1⟩

/-- C3: with a non-empty queue and a transport that fails, `flush()` returns
a `TransportError` and leaves the client — queue included — unchanged, so
`pending_events_count` is identical before and after, and any number of
repeated failing flushes loses no event. -/
theorem flush_failure_preserves_queue (c : WhalyticsClient) (t : Transport)
    (detail : String)
    (hne : c.pending_events ≠ [])
    (hfail : t c.api_key c.pending_events = TransportResult.failure detail) :
    (c.flush t []).result = Except.error ⟨detail⟩ ∧
    (c.flush t []).client = c ∧
    (c.flush t []).client.pending_events_count = c.pending_events_count ∧
    ∀ n, (fun cl => (cl.flush t []).client)^[n] c = c := by
  have hclient : (c.flush t []).client = c := by
    unfold WhalyticsClient.flush
    cases h : c.pending_events with
    | nil => exact absurd h hne
    | cons e rest =>
      rw [h] at hfail
      simp only [hfail, List.append_nil]
      rw [← h]
  refine ⟨?_, hclient, by rw [hclient], fun n => Function.iterate_fixed hclient n⟩
  unfold WhalyticsClient.flush
  cases h : c.pending_events with
  | nil => exact absurd h hne
  | cons e rest =>
    rw [h] at hfail
    simp [hfail]

theorem flush_failure_preserves_queue_witness :
    sampleClient.pending_events ≠ [] ∧
    (sampleClient.flush alwaysFailure []).client = sampleClient :=
  ⟨by simp [sampleClient],
    (flush_failure_preserves_queue sampleClient alwaysFailure "network error"
      (by simp [sampleClient]) rfl).2.1⟩

/-- C6: on an empty queue, `flush()` is a no-op: it returns a trivial success
with zero events sent, makes no transport call, and leaves the client
unchanged. -/
theorem flush_empty_no_transport_call (c : WhalyticsClient) (t : Transport)
    (h : c.pending_events = []) :
    (c.flush t []).result = Except.ok { response := "", events_sent := 0 } ∧
    (c.flush t []).transport_calls = [] ∧
    (c.flush t []).client = c := by
  unfold WhalyticsClient.flush
  rw [h]
  refine ⟨rfl, rfl, ?_⟩
  show ({ c with pending_events := ([] : List Event) ++ [] } : WhalyticsClient) = c
  rw [List.append_nil, ← h]

theorem flush_empty_no_transport_call_witness :
    emptyClient.pending_events = [] ∧
    (emptyClient.flush alwaysFailure []).transport_calls = [] :=
  ⟨rfl, (flush_empty_no_transport_call emptyClient alwaysFailure rfl).2.1⟩

/-- C4: after any sequence of `log_event` and `flush` operations on a freshly
constructed client, `pending_events_count()` equals the number of `log_event`
calls minus the events removed by successful flushes (removals never exceed
logs), and equivalently the number of events logged since the last successful
flush. -/
theorem pending_count_accounting (k : String) (c0 : WhalyticsClient)
    (hnew : WhalyticsClient.new k = Except.ok c0) (ops : List ClientOp) :
    ((runOps c0 ops).1).pending_events_count
        = (runOps c0 ops).2.1 - (runOps c0 ops).2.2 ∧
    (runOps c0 ops).2.2 ≤ (runOps c0 ops).2.1 ∧
    ((runOps c0 ops).1).pending_events_count = sinceLastSuccess c0 0 ops := by
  have hc0 : c0.pending_events_count = 0 := by
    unfold WhalyticsClient.new at hnew
    split at hnew
    · cases hnew
    · cases hnew
      rfl
  have hb := runOps_balance ops c0
  have hs := sinceLastSuccess_correct ops c0 0 hc0
  exact ⟨by omega, by omega, hs⟩

theorem pending_count_accounting_witness :
    WhalyticsClient.new "K" = Except.ok emptyClient ∧
    ((runOps emptyClient sampleOps).1).pending_events_count
      = (runOps emptyClient sampleOps).2.1 - (runOps emptyClient sampleOps).2.2 :=
  ⟨rfl, (pending_count_accounting "K" emptyClient rfl sampleOps).1⟩

/-- C5: `session.event(name)` captures a snapshot of the session's user
properties at call time: the builder's captured map equals the session map at
that moment, any Event built from the builder carries that same map, and when
a later `set_user_property` actually changes the session map, the builder's
snapshot differs from the mutated session's live map — a copy, not a live
reference. -/
theorem session_event_snapshot (s : WhalyticsSession) (nm key : String)
    (v : Json) (now : Nat) :
    (s.event nm).userProps = s.user_properties ∧
    (∀ e, (s.event nm).build now = Except.ok e →
      e.user_properties = s.user_properties) ∧
    (insertProp s.user_properties key v ≠ s.user_properties →
      (s.event nm).userProps ≠ (s.set_user_property key v).user_properties) := by
  refine ⟨rfl, ?_, ?_⟩
  · intro e he
    unfold WhalyticsEventBuilder.build at he
    split at he
    · cases he
    · split at he
      · cases he
      · split at he
        · cases he
        · cases he
          rfl
  · intro hne hEq
    exact hne hEq.symm

theorem session_event_snapshot_witness : (sampleSession.event "start").userProps
    ≠ (sampleSession.set_user_property "platform" (Json.str "go")).user_properties := by
  have hne : insertProp sampleSession.user_properties "platform" (Json.str "go")
      ≠ sampleSession.user_properties := by
    simp [sampleSession, insertProp]
  exact (session_event_snapshot sampleSession "start" "platform"
    (Json.str "go") 0).2.2 hne

/-- C7: whenever `build()` fails, the `ValidationError` names the first
missing or empty required field in the fixed check order
name → user_id → session_id. -/
theorem build_error_names_first_missing (b : WhalyticsEventBuilder)
    (now : Nat) (err : ValidationError)
    (h : b.build now = Except.error err) :
    firstMissingField b = some err.field := by
  unfold WhalyticsEventBuilder.build at h
  unfold firstMissingField
  split at h
  · rename_i hn
    cases h
    simp [hn]
  · rename_i hn
    split at h
    · rename_i hu
      cases h
      simp [hn, hu]
    · rename_i hu
      split at h
      · rename_i hs
        cases h
        simp [hn, hu, hs]
      · cases h

theorem build_error_names_first_missing_witness :
    WhalyticsEventBuilder.default.build 0
        = Except.error ⟨RequiredField.name⟩ ∧
    firstMissingField WhalyticsEventBuilder.default = some RequiredField.name :=
  ⟨rfl, build_error_names_first_missing WhalyticsEventBuilder.default 0
    ⟨RequiredField.name⟩ rfl⟩

/-- C8: `WhalyticsClient::new(api_key)` fails with `InvalidArgument` exactly
when the api key is empty, and `WhalyticsSession::new(user_id, session_id)`
fails with `InvalidArgument` exactly when either identity string is empty;
both are synchronous construction-time results. -/
theorem construction_invalid_argument (api_key user_id session_id : String) :
    ((∃ err, WhalyticsClient.new api_key = Except.error err) ↔ api_key = "") ∧
    ((∃ err, WhalyticsSession.new user_id session_id = Except.error err) ↔
      (user_id = "" ∨ session_id = "")) := by
  constructor
  · unfold WhalyticsClient.new
    by_cases h : api_key = ""
    · simp [h]
    · simp [h]
  · unfold WhalyticsSession.new
    by_cases hu : user_id = ""
    · simp [hu]
    · by_cases hs : session_id = ""
      · simp [hu, hs]
      · simp [hu, hs]

theorem construction_invalid_argument_witness :
    (∃ err, WhalyticsClient.new "" = Except.error err) ∧
    (∃ err, WhalyticsSession.new "u1" "" = Except.error err) :=
  ⟨(construction_invalid_argument "" "u1" "").1.mpr rfl,
   (construction_invalid_argument "" "u1" "").2.mpr (Or.inr rfl)⟩

/-- C9: `log_event(event)` appends the event to the tail of the pending queue
(FIFO order preserved) and touches nothing else; in the model it is a total
function with no transport parameter, so it performs no network call and
never fails. -/
theorem log_event_appends_tail (c : WhalyticsClient) (e : Event) :
    (c.log_event e).pending_events = c.pending_events ++ [e] ∧
    (c.log_event e).api_key = c.api_key ∧
    (c.log_event e).pending_events_count = c.pending_events_count + 1 := by
  refine ⟨rfl, rfl, ?_⟩
  simp [WhalyticsClient.log_event, WhalyticsClient.pending_events_count]

/-- C10: a standalone builder from `WhalyticsEventBuilder::default()` with
only name, user_id and session_id set builds successfully, and the resulting
Event carries those fields and empty property maps — no session involved. -/
theorem default_builder_standalone (n u s : String) (now : Nat)
    (hn : n ≠ "") (hu : u ≠ "") (hs : s ≠ "") :
    ∃ e, (((WhalyticsEventBuilder.default.event n).user_id u).session_id
        s).build now = Except.ok e ∧
      e.name = n ∧ e.user_id = u ∧ e.session_id = s ∧
      e.user_properties = [] ∧ e.event_properties = [] := by
  refine ⟨{ name := n, user_id := u, session_id := s, timestamp := now,
            event_properties := [], user_properties := [] },
    ?_, rfl, rfl, rfl, rfl, rfl⟩
  unfold WhalyticsEventBuilder.build
  simp [WhalyticsEventBuilder.default, WhalyticsEventBuilder.event,
    WhalyticsEventBuilder.user_id, WhalyticsEventBuilder.session_id,
    missingOrEmpty, hn, hu, hs]

theorem default_builder_standalone_witness :
    ∃ e, (((WhalyticsEventBuilder.default.event "app_start").user_id
        "rust_user_123").session_id "rust_session_456").build 0
        = Except.ok e ∧
      e.name = "app_start" ∧ e.user_id = "rust_user_123" ∧
      e.session_id = "rust_session_456" ∧
      e.user_properties = [] ∧ e.event_properties = [] :=
  default_builder_standalone "app_start" "rust_user_123" "rust_session_456" 0
    (by decide) (by decide) (by decide)

end Whalytics
